import Mathlib

/-!
Verification development for the cloud-init-strict repository.

This file shallowly embeds the core of the repository:
  * the payload filter `filter_boothooks`
    (src/cloudinit/sources/DataSourceBootHookFilter.py lines 16-43, and the
    identical copy in DataSourceBootHookMultiFilter.py lines 17-52);
  * the two detection sweeps `_try_detect_with_depends` /
    `_find_and_set_underlying_ds` of DataSourceBootHookFilter.py and
    `_find_and_set_underlying_ds` of DataSourceBootHookMultiFilter.py;
  * the delegating facade methods shared by both classes.

Bytes are modelled as `List Nat` (byte values); Python `str` payloads are
modelled by their UTF-8 byte sequence, tagged with the original type, since
every byte operation of the source commutes with the encode/decode pair.
-/

namespace CloudInitStrict

/-! ## Payload filter

The marker literal of the regex `rb'^#cloud-boothook.*?(?=^#\w|\Z)'`
(compiled with MULTILINE and DOTALL): the bytes of "#cloud-boothook". -/

def markerBytes : List Nat :=
  [35, 99, 108, 111, 117, 100, 45, 98, 111, 111, 116, 104, 111, 111, 107]

/-- `\w` on a bytes pattern: ASCII letters, digits and underscore. -/
def isWordByte (b : Nat) : Bool :=
  (decide (48 ≤ b) && decide (b ≤ 57)) ||
  (decide (65 ≤ b) && decide (b ≤ 90)) ||
  (decide (97 ≤ b) && decide (b ≤ 122)) ||
  b == 95

/-- The byte values stripped by Python `bytes.strip()`:
space, tab, newline, carriage return, vertical tab, form feed. -/
def isSpaceByte (b : Nat) : Bool :=
  b == 32 || b == 9 || b == 10 || b == 13 || b == 11 || b == 12

/-- `bytes.strip()`: drop leading and trailing ASCII whitespace. -/
def stripBytes (l : List Nat) : List Nat :=
  ((l.dropWhile isSpaceByte).reverse.dropWhile isSpaceByte).reverse

/-- Does the byte list start with the `#cloud-boothook` marker literal? -/
def startsWithMarker (l : List Nat) : Bool :=
  markerBytes.isPrefixOf l

/-- The regex lookahead `(?=^#\w)`: the position starts a line whose first
byte is `#` followed by a word byte. (Line-start status is tracked by the
caller.) -/
def isHashWordStart : List Nat → Bool
  | 35 :: c :: _ => isWordByte c
  | _ => false

/-- `re.search(rb'^#cloud-boothook', data, re.MULTILINE)`: some position at
the start of a line (offset 0 or just after a newline byte 10) begins with
the marker literal. `atStart` says whether the current position is at a
line start. -/
def hasBoothookAux : List Nat → Bool → Bool
  | [], _ => false
  | b :: rest, atStart =>
    (atStart && startsWithMarker (b :: rest)) || hasBoothookAux rest (b == 10)

/-- `BOOTHOK_RE.sub(b'', data)` as a single left-to-right scan.

A match of `rb'^#cloud-boothook.*?(?=^#\w|\Z)'` (MULTILINE, DOTALL)
starts at a line-start position where the marker literal matches and
extends, non-greedily, to the first later position that starts a
`#`+word-byte line, or to the end of input (`\Z`); `sub` deletes every
such match, resuming the scan at each match end. Since the marker
literal contains no newline, every line-start position reached while
inside a match lies after the literal, so the scan is a byte-by-byte
state machine: `atStart` tracks whether the position follows a newline
(or is position 0), `deleting` tracks whether the position is inside a
match. At a line start that matches the marker literal a (new) match
begins — exactly as the regex engine resumes at a match end, whose
terminator `#`+word position may itself start the next marker match;
inside a match, a line start satisfying the `(?=^#\w)` lookahead ends
it and the byte is kept; every other byte is deleted or kept according
to the mode. -/
def subBoothookAux : List Nat → Bool → Bool → List Nat
  | [], _, _ => []
  | b :: rest, atStart, deleting =>
    if atStart && startsWithMarker (b :: rest) then
      subBoothookAux rest (b == 10) true
    else if deleting && !(atStart && isHashWordStart (b :: rest)) then
      subBoothookAux rest (b == 10) true
    else
      b :: subBoothookAux rest (b == 10) false

/-- A payload as seen by `filter_boothooks`: Python text (modelled by its
UTF-8 bytes), Python bytes, or any other object (identified by an id, with
its truthiness). -/
inductive Payload where
  | str (data : List Nat)
  | bytes (data : List Nat)
  | other (objId : Nat) (truthy : Bool)
deriving Repr, DecidableEq

/-- `filter_boothooks(userdata_raw, log)` from
DataSourceBootHookFilter.py lines 20-43: empty payloads and non-str,
non-bytes payloads are returned unchanged; if no line starts with the
marker the payload is returned unchanged; otherwise every marker block is
removed by the regex sub and the result is stripped, returned in the
original type. -/
def filter_boothooks : Payload → Payload
  | .str d =>
    if d.isEmpty then .str d
    else if hasBoothookAux d true then .str (stripBytes (subBoothookAux d true false))
    else .str d
  | .bytes d =>
    if d.isEmpty then .bytes d
    else if hasBoothookAux d true then .bytes (stripBytes (subBoothookAux d true false))
    else .bytes d
  | .other n t => .other n t

/-- The runtime type tag of a payload (str / bytes / other). -/
inductive PayloadKind where
  | text
  | binary
  | otherKind
deriving Repr, DecidableEq

def payloadKind : Payload → PayloadKind
  | .str _ => .text
  | .bytes _ => .binary
  | .other _ _ => .otherKind

/-- A payload (of str or bytes type) none of whose lines begins with the
marker literal; `other` payloads are never inspected for markers. -/
def noMarkerLine : Payload → Bool
  | .str d => !hasBoothookAux d true
  | .bytes d => !hasBoothookAux d true
  | .other _ _ => true

/-! ## Detection

The probe of one candidate (DataSourceBootHookFilter.py lines 117-143,
DataSourceBootHookMultiFilter.py lines 146-182): the candidate class is
instantiated and its `get_data()` called under a SIGALRM deadline. The
observable behaviours of construction + check are: `get_data()` returns
True; `get_data()` returns False; the alarm fires (DatasourceTimeoutError);
DataSourceNotFoundException is raised; any other exception is raised. -/

inductive ProbeBehavior where
  | succeeds
  | declines
  | raisesTimeout
  | raisesNotFound
  | raisesError
deriving Repr, DecidableEq

/-- `check_success` after the try/except block: only a True `get_data()`
counts; every exception is caught and leaves `check_success` False. -/
def probeSuccess : ProbeBehavior → Bool
  | .succeeds => true
  | _ => false

/-- Does the probe end in a raised exception (all of which the probe
catches)? -/
def probeRaises : ProbeBehavior → Bool
  | .raisesTimeout => true
  | .raisesNotFound => true
  | .raisesError => true
  | _ => false

/-- The two dependency sets the detectors pass to the external registry:
`[DEP_FILESYSTEM]` (init-local) and `[DEP_FILESYSTEM, DEP_NETWORK]`. -/
inductive Stage where
  | fsOnly
  | fsNet
deriving Repr, DecidableEq

/-- One configured backend candidate, together with the behaviour of the
external collaborators for it: `eligibleFS` / `eligibleFSNet` record
whether the external `sources.list_sources` registry reports this
candidate for the `[DEP_FILESYSTEM]` resp.
`[DEP_FILESYSTEM, DEP_NETWORK]` dependency set (the registry is outside
src/; the spec's Candidate Resolver only requires that it filters by the
stage's capability set and preserves the configured order, so the two
flags are left unconstrained); `probe` is what instantiating the candidate
and calling its `get_data()` does; the remaining fields are the responses
of the instantiated backend's capability accessors, consumed by the
facade's delegation methods. -/
structure Candidate where
  name : String
  eligibleFS : Bool
  eligibleFSNet : Bool
  probe : ProbeBehavior
  instanceId : String
  publicKeys : List String
  hostnameVal : String
  localeTag : String
  platformVal : String
  subplatformVal : String
  userdataRaw : Option Payload
  fetchRaises : Bool
deriving Repr, DecidableEq

def Candidate.eligibleAt (c : Candidate) : Stage → Bool
  | .fsOnly => c.eligibleFS
  | .fsNet => c.eligibleFSNet

/-- The configuration a detection sweep sees: the configured
`datasource_list` (in order, each name resolved against the registry into
a `Candidate`) and the proxy's own name (`my_name`, the class name with
the "DataSource" prefix removed). -/
structure Env where
  datasource_list : List Candidate
  myName : String
deriving Repr, DecidableEq

/-- The candidate loop shared by both detectors: walk the detection list
in order; a candidate absent from `available_sources_map` for the current
dependency set is skipped (`continue`); an eligible candidate is probed;
the first successful probe ends the loop with that candidate; probe
failures (False or caught exception) fall through to the next
candidate. -/
def detectLoop (stage : Stage) : List Candidate → Option Candidate
  | [] => none
  | c :: rest =>
    if c.eligibleAt stage then
      if probeSuccess c.probe then some c
      else detectLoop stage rest
    else detectLoop stage rest

/-- `_try_detect_with_depends(depends_param)` of
DataSourceBootHookFilter.py lines 59-145: drop the proxy's own name from
the configured list; fail if nothing remains; build
`available_sources_map` from the registry's answer for this dependency
set and fail if it is empty; otherwise run the candidate loop over the
configured order. -/
def tryDetectWithDepends (env : Env) (stage : Stage) : Option Candidate :=
  let detectionList := env.datasource_list.filter (fun c => c.name ≠ env.myName)
  if detectionList.isEmpty then none
  else if (detectionList.filter (fun c => c.eligibleAt stage)).isEmpty then none
  else detectLoop stage detectionList

/-- `_find_and_set_underlying_ds` of DataSourceBootHookFilter.py lines
147-172 (detection proper, given that no backend is stored yet): attempt
the `[DEP_FILESYSTEM]` stage first; only if it finds nothing, attempt the
`[DEP_FILESYSTEM, DEP_NETWORK]` stage. -/
def filterDetect (env : Env) : Option Candidate :=
  match tryDetectWithDepends env .fsOnly with
  | some c => some c
  | none => tryDetectWithDepends env .fsNet

/-- `_find_and_set_underlying_ds` of DataSourceBootHookMultiFilter.py
lines 68-191 (detection proper): a single sweep; the registry is asked
once with `depends_param = [DEP_FILESYSTEM, DEP_NETWORK]` and the
candidate loop runs over `available_sources_map` (which, the registry
preserving configured order, iterates in configured order). -/
def multiDetect (env : Env) : Option Candidate :=
  let detectionList := env.datasource_list.filter (fun c => c.name ≠ env.myName)
  if detectionList.isEmpty then none
  else detectLoop .fsNet detectionList

/-! ## Detection cache / facade

Both classes keep `underlying_ds_instance` / `underlying_ds_name`
(initialised to None) and route every capability call through
`_get_underlying_ds`. The facade methods are literally identical in the
two files, differing only in which `_find_and_set_underlying_ds` they
call, so they are embedded once, parameterised by the detection
function. -/

structure FacadeState where
  underlying : Option Candidate
  underlyingName : Option String
deriving Repr, DecidableEq

def initialFacadeState : FacadeState := ⟨none, none⟩

abbrev DetectFun := Env → Option Candidate

/-- `_find_and_set_underlying_ds`, state part: return immediately if a
backend is already stored; otherwise run detection, and on success store
instance and name, on failure leave both absent (DataSourceBootHookFilter
assigns None explicitly on its failure path; DataSourceBootHookMultiFilter
leaves the fields untouched — they were None whenever this branch is
reached, so the two agree). -/
def findAndSetUnderlying (detect : DetectFun) (env : Env)
    (st : FacadeState) : FacadeState × Bool :=
  match st.underlying with
  | some _ => (st, true)
  | none =>
    match detect env with
    | some c => (⟨some c, some c.name⟩, true)
    | none => (⟨none, none⟩, false)

/-- `_get_underlying_ds` (DataSourceBootHookFilter.py lines 174-182,
DataSourceBootHookMultiFilter.py lines 193-200): run detection only if no
backend is stored, and return the stored instance. -/
def getUnderlyingDs (detect : DetectFun) (env : Env)
    (st : FacadeState) : FacadeState × Option Candidate :=
  if st.underlying.isNone then
    let st2 := (findAndSetUnderlying detect env st).1
    (st2, st2.underlying)
  else (st, st.underlying)

/-- `get_data` of the facade: True iff a backend is (now) detected. -/
def facade_get_data (detect : DetectFun) (env : Env)
    (st : FacadeState) : FacadeState × Bool :=
  let r := getUnderlyingDs detect env st
  (r.1, r.2.isSome)

/-- `get_userdata_raw` of the facade: delegate, catch a raising fetch
(returning None), pass None through, and filter the fetched payload.
(The write-back of the filtered payload into the backend's own
`userdata_raw` cache mutates the backend object, not the facade's stored
reference, and is not modelled as facade state.) -/
def facade_get_userdata_raw (detect : DetectFun) (env : Env)
    (st : FacadeState) : FacadeState × Option Payload :=
  let r := getUnderlyingDs detect env st
  (r.1, match r.2 with
        | none => none
        | some uds =>
          if uds.fetchRaises then none
          else
            match uds.userdataRaw with
            | none => none
            | some d => some (filter_boothooks d))

/-- `platform` of the facade. -/
def facade_platform (detect : DetectFun) (env : Env)
    (st : FacadeState) : FacadeState × String :=
  let r := getUnderlyingDs detect env st
  (r.1, match r.2 with
        | some uds => uds.platformVal
        | none => "proxy")

/-- `subplatform` of the facade (`getattr(uds, 'subplatform',
'filtered-proxy')`; the backend interface of spec section 6 includes the
sub-platform accessor, so the attribute is present on a detected
backend). -/
def facade_subplatform (detect : DetectFun) (env : Env)
    (st : FacadeState) : FacadeState × String :=
  let r := getUnderlyingDs detect env st
  (r.1, match r.2 with
        | some uds => uds.subplatformVal
        | none => "filtered-proxy")

/-- `get_instance_id` of the facade. -/
def facade_get_instance_id (detect : DetectFun) (env : Env)
    (st : FacadeState) : FacadeState × String :=
  let r := getUnderlyingDs detect env st
  (r.1, match r.2 with
        | some uds => uds.instanceId
        | none => "iid-proxy-unknown")

/-- `get_public_ssh_keys` of the facade. -/
def facade_get_public_ssh_keys (detect : DetectFun) (env : Env)
    (st : FacadeState) : FacadeState × List String :=
  let r := getUnderlyingDs detect env st
  (r.1, match r.2 with
        | some uds => uds.publicKeys
        | none => [])

/-- Modelled from the spec: the generic default hostname supplied by the
base capability set (the external cloud-init `DataSource.get_hostname`,
not part of src/), represented as a fixed default value. -/
def base_get_hostname (_fqdn : Bool) (_metadata_only : Bool) : String :=
  "localhost"

/-- `get_hostname` of the facade: delegate when a backend exists (the
backend interface includes `get_hostname`, so the `hasattr` guard holds),
else fall back to the base class implementation. -/
def facade_get_hostname (detect : DetectFun) (env : Env)
    (st : FacadeState) (fqdn metadata_only : Bool) : FacadeState × String :=
  let r := getUnderlyingDs detect env st
  (r.1, match r.2 with
        | some uds => uds.hostnameVal
        | none => base_get_hostname fqdn metadata_only)

/-- `get_locale` of the facade. -/
def facade_get_locale (detect : DetectFun) (env : Env)
    (st : FacadeState) : FacadeState × String :=
  let r := getUnderlyingDs detect env st
  (r.1, match r.2 with
        | some uds => uds.localeTag
        | none => "en_US.UTF-8")

/-! ## Concrete instances used in witnesses and counterexamples -/

/-- A backend eligible only for the `[DEP_FILESYSTEM]` dependency set,
whose probe succeeds. -/
def candX : Candidate :=
  ⟨"X", true, false, .succeeds, "iid-x", ["key-x"], "host-x", "lo-x",
    "plat-x", "sub-x", some (.bytes [104, 105]), false⟩

/-- A backend eligible only for the `[DEP_FILESYSTEM, DEP_NETWORK]`
dependency set, whose probe succeeds. -/
def candY : Candidate :=
  ⟨"Y", false, true, .succeeds, "iid-y", ["key-y"], "host-y", "lo-y",
    "plat-y", "sub-y", some (.bytes [104, 111]), false⟩

/-- A backend eligible in both dependency sets, succeeding, listed first. -/
def candA : Candidate :=
  ⟨"A", true, true, .succeeds, "iid-a", [], "host-a", "lo-a",
    "plat-a", "sub-a", none, false⟩

/-- A backend eligible in both dependency sets, succeeding, listed second. -/
def candB : Candidate :=
  ⟨"B", true, true, .succeeds, "iid-b", [], "host-b", "lo-b",
    "plat-b", "sub-b", none, false⟩

/-- A backend whose probe times out (the alarm raises
DatasourceTimeoutError inside the check). -/
def candBad : Candidate :=
  ⟨"Bad", true, true, .raisesTimeout, "iid-bad", [], "host-bad", "lo-bad",
    "plat-bad", "sub-bad", none, false⟩

/-- Configuration with Y listed before X, seen by the MultiFilter class. -/
def envC1multi : Env := ⟨[candY, candX], "BootHookMultiFilter"⟩

/-- Configuration with Y listed before X, seen by the Filter class. -/
def envC1filter : Env := ⟨[candY, candX], "BootHookFilter"⟩

/-- Configuration with A listed before B. -/
def envC2 : Env := ⟨[candA, candB], "BootHookFilter"⟩

/-- Configuration with no candidate backends at all. -/
def envEmpty : Env := ⟨[], "BootHookFilter"⟩

/-- A facade whose detection has already resolved to `candX`. -/
def stResolved : FacadeState := ⟨some candX, some "X"⟩

/-- The spec's block-removal reference input
"#marker\nline1\nline2\n#other\nkeep\n" with the marker instantiated as
`#cloud-boothook` (bytes). -/
def c6Input : List Nat :=
  markerBytes ++ [10, 108, 105, 110, 101, 49, 10, 108, 105, 110, 101, 50,
    10, 35, 111, 116, 104, 101, 114, 10, 107, 101, 101, 112, 10]

/-- The bytes of "#other\nkeep". -/
def c6Output : List Nat :=
  [35, 111, 116, 104, 101, 114, 10, 107, 101, 101, 112]

/-- The bytes of " #cloud-boothook\n#cloud-boothook": an indented marker
line followed by a marker line at a line start. -/
def xC4 : List Nat := 32 :: markerBytes ++ 10 :: markerBytes

/-! ## Helper lemmas -/

theorem probeSuccess_eq_false_of_raises (p : ProbeBehavior)
    (h : probeRaises p = true) : probeSuccess p = false := by
  cases p <;> simp_all [probeRaises, probeSuccess]

theorem detectLoop_none_of_no_elig (stage : Stage) (l : List Candidate)
    (h : ∀ c ∈ l, c.eligibleAt stage = false) : detectLoop stage l = none := by
  induction l with
  | nil => rfl
  | cons c rest ih =>
    have hc : c.eligibleAt stage = false := h c (List.mem_cons_self c rest)
    simp only [detectLoop, hc]
    exact ih fun x hx => h x (List.mem_cons_of_mem c hx)

theorem detectLoop_skip (stage : Stage) (bad : Candidate)
    (hb : probeSuccess bad.probe = false) (xs ys : List Candidate) :
    detectLoop stage (xs ++ bad :: ys) = detectLoop stage (xs ++ ys) := by
  induction xs with
  | nil =>
    simp only [List.nil_append, detectLoop, hb]
    by_cases he : bad.eligibleAt stage = true <;> simp [he]
  | cons x xs ih =>
    by_cases he : x.eligibleAt stage = true
    · by_cases hs : probeSuccess x.probe = true
      · simp [detectLoop, he, hs]
      · simp [detectLoop, he, hs, ih]
    · simp [detectLoop, he, ih]

theorem detectLoop_some_success (stage : Stage) (l : List Candidate)
    (c : Candidate) (h : detectLoop stage l = some c) :
    probeSuccess c.probe = true := by
  induction l with
  | nil => simp [detectLoop] at h
  | cons x rest ih =>
    simp only [detectLoop] at h
    by_cases he : x.eligibleAt stage = true
    · rw [if_pos he] at h
      by_cases hs : probeSuccess x.probe = true
      · rw [if_pos hs] at h
        cases h
        exact hs
      · rw [if_neg hs] at h
        exact ih h
    · rw [if_neg he] at h
      exact ih h

/-- The guard structure of `_try_detect_with_depends` is behaviour-neutral:
each early `return False` branch coincides with the candidate loop finding
nothing, so a stage attempt always equals the candidate loop over the
detection list. -/
theorem tryDetectWithDepends_eq_loop (env : Env) (stage : Stage) :
    tryDetectWithDepends env stage =
      detectLoop stage (env.datasource_list.filter (fun c => c.name ≠ env.myName)) := by
  show (if _ then _ else _) = _
  generalize env.datasource_list.filter (fun c => c.name ≠ env.myName) = L
  by_cases h1 : L.isEmpty = true
  · rw [if_pos h1, List.isEmpty_iff.mp h1]
    rfl
  · rw [if_neg h1]
    by_cases h2 : (L.filter (fun c => c.eligibleAt stage)).isEmpty = true
    · rw [if_pos h2]
      have h3 := List.isEmpty_iff.mp h2
      rw [List.filter_eq_nil_iff] at h3
      exact (detectLoop_none_of_no_elig stage L fun c hc => by
        simpa using h3 c hc).symm
    · rw [if_neg h2]

/-- The empty-list guard of the MultiFilter sweep is likewise
behaviour-neutral. -/
theorem multiDetect_eq_loop (env : Env) :
    multiDetect env =
      detectLoop .fsNet (env.datasource_list.filter (fun c => c.name ≠ env.myName)) := by
  show (if _ then _ else _) = _
  generalize env.datasource_list.filter (fun c => c.name ≠ env.myName) = L
  by_cases h1 : L.isEmpty = true
  · rw [if_pos h1, List.isEmpty_iff.mp h1]
    rfl
  · rw [if_neg h1]

theorem filterDetect_some_success (env : Env) (c : Candidate)
    (h : filterDetect env = some c) : probeSuccess c.probe = true := by
  unfold filterDetect at h
  rcases h2 : tryDetectWithDepends env .fsOnly with _ | d
  · rw [h2] at h
    rw [tryDetectWithDepends_eq_loop] at h
    exact detectLoop_some_success _ _ _ h
  · rw [h2] at h
    cases h
    rw [tryDetectWithDepends_eq_loop] at h2
    exact detectLoop_some_success _ _ _ h2

theorem multiDetect_some_success (env : Env) (c : Candidate)
    (h : multiDetect env = some c) : probeSuccess c.probe = true := by
  rw [multiDetect_eq_loop] at h
  exact detectLoop_some_success _ _ _ h

/-- `tryDetectWithDepends_eq_loop` applied to a literal configuration. -/
theorem tryDetectWithDepends_mk_eq_loop (l : List Candidate) (me : String)
    (stage : Stage) :
    tryDetectWithDepends ⟨l, me⟩ stage =
      detectLoop stage (l.filter (fun c => c.name ≠ me)) :=
  tryDetectWithDepends_eq_loop ⟨l, me⟩ stage

/-- `multiDetect_eq_loop` applied to a literal configuration. -/
theorem multiDetect_mk_eq_loop (l : List Candidate) (me : String) :
    multiDetect ⟨l, me⟩ =
      detectLoop .fsNet (l.filter (fun c => c.name ≠ me)) :=
  multiDetect_eq_loop ⟨l, me⟩

/-- Filtering a payload none of whose lines begins with the marker is the
identity: the empty guard and the no-marker guard both return the payload
unchanged, and `other` payloads are returned unchanged. -/
theorem filter_boothooks_eq_self_of_no_marker (p : Payload)
    (h : noMarkerLine p = true) : filter_boothooks p = p := by
  cases p with
  | str d =>
    simp only [noMarkerLine, Bool.not_eq_true'] at h
    by_cases he : d.isEmpty = true <;> simp [filter_boothooks, he, h]
  | bytes d =>
    simp only [noMarkerLine, Bool.not_eq_true'] at h
    by_cases he : d.isEmpty = true <;> simp [filter_boothooks, he, h]
  | other n t => rfl

/-! ## Claim theorems -/

/-- C1 (amended): for the two-stage detector of DataSourceBootHookFilter,
with exactly two candidate backends where X is eligible only for the
first, filesystem-only dependency set and probes successfully, and Y is
eligible only for the second, filesystem+network dependency set, detection
returns X even though Y precedes X in the configured datasource_list: the
filesystem-only stage is attempted first and its success short-circuits
the network stage. (The single-sweep MultiFilter variant violates the
original claim; see the counterexample.) -/
theorem c1_stage_precedence (X Y : Candidate) (env : Env)
    (hXfs : X.eligibleFS = true) (_hXnet : X.eligibleFSNet = false)
    (hYfs : Y.eligibleFS = false) (_hYnet : Y.eligibleFSNet = true)
    (hXp : probeSuccess X.probe = true)
    (_hYp : probeSuccess Y.probe = true)
    (hlist : env.datasource_list.filter (fun c => c.name ≠ env.myName) = [Y, X]) :
    filterDetect env = some X := by
  unfold filterDetect
  rw [tryDetectWithDepends_eq_loop, tryDetectWithDepends_eq_loop, hlist]
  simp [detectLoop, Candidate.eligibleAt, hXfs, hYfs, hXp]

/-- C1 witness: the concrete configuration [Y, X] under the two-stage
detector yields X. -/
theorem c1_witness : filterDetect envC1filter = some candX :=
  c1_stage_precedence candX candY envC1filter rfl rfl rfl rfl rfl rfl (by decide)

/-- C1 counterexample: in the same scenario (X eligible and functional
only in the filesystem-only stage, Y only in the filesystem+network
stage, Y listed first), the detection of DataSourceBootHookMultiFilter —
a single sweep with the combined dependency set, cited by the claim —
returns Y, not X. -/
theorem c1_counterexample :
    candX.eligibleFS = true ∧ candX.eligibleFSNet = false ∧
    probeSuccess candX.probe = true ∧
    candY.eligibleFS = false ∧ candY.eligibleFSNet = true ∧
    probeSuccess candY.probe = true ∧
    multiDetect envC1multi = some candY ∧ candY ≠ candX := by decide

/-- C2: for two candidates A and B eligible in the same stages, both of
whose probes would succeed, with A preceding B in the configured
datasource_list, both detectors select A: candidates within a stage are
probed in configured order and the first success wins (for the
MultiFilter sweep, whose single stage uses the combined dependency set,
under its eligibility there). -/
theorem c2_order_within_stage (A B : Candidate) (env : Env)
    (hfs : A.eligibleFS = B.eligibleFS) (_hnet : A.eligibleFSNet = B.eligibleFSNet)
    (helig : (A.eligibleFS || A.eligibleFSNet) = true)
    (hA : probeSuccess A.probe = true) (_hB : probeSuccess B.probe = true)
    (hlist : env.datasource_list.filter (fun c => c.name ≠ env.myName) = [A, B]) :
    filterDetect env = some A ∧
      (A.eligibleFSNet = true → multiDetect env = some A) := by
  constructor
  · unfold filterDetect
    rw [tryDetectWithDepends_eq_loop, tryDetectWithDepends_eq_loop, hlist]
    by_cases hAfs : A.eligibleFS = true
    · simp [detectLoop, Candidate.eligibleAt, hAfs, hA]
    · have hAfs2 : A.eligibleFS = false := by simpa using hAfs
      have hAnet : A.eligibleFSNet = true := by simpa [hAfs2] using helig
      have hBfs : B.eligibleFS = false := by rw [← hfs]; exact hAfs2
      simp [detectLoop, Candidate.eligibleAt, hAfs2, hBfs, hAnet, hA]
  · intro hAnet
    rw [multiDetect_eq_loop, hlist]
    simp [detectLoop, Candidate.eligibleAt, hAnet, hA]

/-- C2 witness: the concrete configuration [A, B], both eligible
everywhere and both succeeding, yields A for both detectors. -/
theorem c2_witness :
    filterDetect envC2 = some candA ∧
      (candA.eligibleFSNet = true → multiDetect envC2 = some candA) :=
  c2_order_within_stage candA candB envC2 rfl rfl rfl rfl rfl (by decide)

/-- C3: once the stored backend is non-absent, every capability call
leaves the facade state — the stored backend and its stored name —
unchanged; since the statement holds for an arbitrary detection function,
no capability call consults detection again. -/
theorem c3_monotonic_resolved (detect : DetectFun) (env : Env)
    (st : FacadeState) (c : Candidate) (fq mo : Bool)
    (h : st.underlying = some c) :
    (facade_get_data detect env st).1 = st ∧
    (facade_get_userdata_raw detect env st).1 = st ∧
    (facade_get_instance_id detect env st).1 = st ∧
    (facade_get_public_ssh_keys detect env st).1 = st ∧
    (facade_get_hostname detect env st fq mo).1 = st ∧
    (facade_get_locale detect env st).1 = st ∧
    (facade_platform detect env st).1 = st ∧
    (facade_subplatform detect env st).1 = st := by
  have hg : getUnderlyingDs detect env st = (st, st.underlying) := by
    unfold getUnderlyingDs
    rw [h]
    simp
  refine ⟨?_, ?_, ?_, ?_, ?_, ?_, ?_, ?_⟩ <;>
    simp [facade_get_data, facade_get_userdata_raw, facade_get_instance_id,
      facade_get_public_ssh_keys, facade_get_hostname, facade_get_locale,
      facade_platform, facade_subplatform, hg]

/-- C3 witness: a facade already resolved to candX is left unchanged by
every capability call, for a detection function that would now find
nothing. -/
theorem c3_witness :
    (facade_get_data (fun _ => none) envC1filter stResolved).1 = stResolved ∧
    (facade_get_userdata_raw (fun _ => none) envC1filter stResolved).1 = stResolved ∧
    (facade_get_instance_id (fun _ => none) envC1filter stResolved).1 = stResolved ∧
    (facade_get_public_ssh_keys (fun _ => none) envC1filter stResolved).1 = stResolved ∧
    (facade_get_hostname (fun _ => none) envC1filter stResolved false false).1 = stResolved ∧
    (facade_get_locale (fun _ => none) envC1filter stResolved).1 = stResolved ∧
    (facade_platform (fun _ => none) envC1filter stResolved).1 = stResolved ∧
    (facade_subplatform (fun _ => none) envC1filter stResolved).1 = stResolved :=
  c3_monotonic_resolved (fun _ => none) envC1filter stResolved candX false false rfl

/-- C4 counterexample: the filter is not idempotent. On the payload
" #cloud-boothook\n#cloud-boothook" the first pass removes the second
(line-start) marker block and the final strip exposes the first,
indented marker at the start of the result, so a second pass removes it
too. -/
theorem c4_counterexample :
    filter_boothooks (filter_boothooks (.bytes xC4)) ≠
      filter_boothooks (.bytes xC4) := by decide

/-- C4 (amended): filter(filter(x)) = filter(x) for every payload x whose
filtered result contains no line beginning with the marker token; the
final whitespace trim can expose an indented marker at the start of the
output, and only then does a second application filter further. -/
theorem c4_idempotent_on_markerfree_result (p : Payload)
    (h : noMarkerLine (filter_boothooks p) = true) :
    filter_boothooks (filter_boothooks p) = filter_boothooks p :=
  filter_boothooks_eq_self_of_no_marker _ h

/-- C4 witness: the reference payload of C6 filters to a marker-free
result, on which a second pass is a no-op. -/
theorem c4_witness :
    noMarkerLine (filter_boothooks (.bytes c6Input)) = true ∧
    filter_boothooks (filter_boothooks (.bytes c6Input)) =
      filter_boothooks (.bytes c6Input) :=
  ⟨by decide, c4_idempotent_on_markerfree_result _ (by decide)⟩

/-- C5 counterexample: the payload " a " is non-empty and has no
marker-prefixed line, yet the filter does not return its trimmed form:
the no-marker path returns the payload before the strip is ever
reached. -/
theorem c5_counterexample :
    hasBoothookAux [32, 97, 32] true = false ∧
    filter_boothooks (.bytes [32, 97, 32]) ≠
      .bytes (stripBytes [32, 97, 32]) := by decide

/-- C5 (amended): for every non-empty payload in which no line begins
with the marker token, the filter returns the payload exactly unchanged —
the whitespace trim does not apply on the no-marker no-op path (type
preserved). -/
theorem c5_no_marker_no_op (d : List Nat) (hne : d ≠ [])
    (h : hasBoothookAux d true = false) :
    filter_boothooks (.bytes d) = .bytes d ∧
      filter_boothooks (.str d) = .str d := by
  have he : d.isEmpty = false := by simpa [List.isEmpty_iff] using hne
  constructor <;> simp [filter_boothooks, he, h]

/-- C5 witness: the payload " a " is returned unchanged in both types. -/
theorem c5_witness :
    filter_boothooks (.bytes [32, 97, 32]) = .bytes [32, 97, 32] ∧
      filter_boothooks (.str [32, 97, 32]) = .str [32, 97, 32] :=
  c5_no_marker_no_op [32, 97, 32] (by decide) (by decide)

/-- C6: the reference payload "#cloud-boothook\nline1\nline2\n#other\n
keep\n" filters to exactly "#other\nkeep" (in both representations): the
maximal block from the marker line up to but excluding the next
token-prefixed line is removed and the result trimmed. -/
theorem c6_block_removal :
    filter_boothooks (.bytes c6Input) = .bytes c6Output ∧
      filter_boothooks (.str c6Input) = .str c6Output := by decide

/-- C7: the filter preserves the runtime type of the payload on every
path (empty, no-marker, marker-removal, and non-str/bytes). -/
theorem c7_type_preserved (p : Payload) :
    payloadKind (filter_boothooks p) = payloadKind p := by
  cases p with
  | str d =>
    by_cases he : d.isEmpty = true <;>
      by_cases hm : hasBoothookAux d true = true <;>
        simp [filter_boothooks, payloadKind, he, hm]
  | bytes d =>
    by_cases he : d.isEmpty = true <;>
      by_cases hm : hasBoothookAux d true = true <;>
        simp [filter_boothooks, payloadKind, he, hm]
  | other n t => rfl

/-- C8: when detection finds no backend and none is stored, every facade
capability call returns its documented fallback: get_data False,
get_userdata_raw None, get_instance_id the sentinel placeholder,
get_public_ssh_keys the empty sequence, get_hostname the base-class
default, get_locale the fixed default locale tag, and
platform/subplatform the fixed proxy tags. -/
theorem c8_fallbacks (detect : DetectFun) (env : Env) (st : FacadeState)
    (fq mo : Bool) (hst : st.underlying = none) (hdet : detect env = none) :
    (facade_get_data detect env st).2 = false ∧
    (facade_get_userdata_raw detect env st).2 = none ∧
    (facade_get_instance_id detect env st).2 = "iid-proxy-unknown" ∧
    (facade_get_public_ssh_keys detect env st).2 = [] ∧
    (facade_get_hostname detect env st fq mo).2 = base_get_hostname fq mo ∧
    (facade_get_locale detect env st).2 = "en_US.UTF-8" ∧
    (facade_platform detect env st).2 = "proxy" ∧
    (facade_subplatform detect env st).2 = "filtered-proxy" := by
  have hg : getUnderlyingDs detect env st = (⟨none, none⟩, none) := by
    unfold getUnderlyingDs findAndSetUnderlying
    rw [hst, hdet]
    simp
  refine ⟨?_, ?_, ?_, ?_, ?_, ?_, ?_, ?_⟩ <;>
    simp [facade_get_data, facade_get_userdata_raw, facade_get_instance_id,
      facade_get_public_ssh_keys, facade_get_hostname, facade_get_locale,
      facade_platform, facade_subplatform, hg]

/-- C8 witness: an empty configuration detects nothing under the
two-stage detector and every capability call of a fresh facade returns
its fallback. -/
theorem c8_witness :
    (facade_get_data filterDetect envEmpty initialFacadeState).2 = false ∧
    (facade_get_userdata_raw filterDetect envEmpty initialFacadeState).2 = none ∧
    (facade_get_instance_id filterDetect envEmpty initialFacadeState).2 = "iid-proxy-unknown" ∧
    (facade_get_public_ssh_keys filterDetect envEmpty initialFacadeState).2 = [] ∧
    (facade_get_hostname filterDetect envEmpty initialFacadeState false false).2 = base_get_hostname false false ∧
    (facade_get_locale filterDetect envEmpty initialFacadeState).2 = "en_US.UTF-8" ∧
    (facade_platform filterDetect envEmpty initialFacadeState).2 = "proxy" ∧
    (facade_subplatform filterDetect envEmpty initialFacadeState).2 = "filtered-proxy" :=
  c8_fallbacks filterDetect envEmpty initialFacadeState false false rfl rfl

/-- C9: a candidate whose construction or check raises (timeout,
not-found, or any other exception) is caught inside the probe and never
aborts or alters the sweep: both detectors return exactly what they
would return with that candidate absent, and any candidate either
detector selects has a successful probe — so a raising candidate is
never stored as the detected backend. -/
theorem c9_probe_isolation (bad : Candidate) (pre post : List Candidate)
    (me : String) (hb : probeRaises bad.probe = true) :
    filterDetect ⟨pre ++ bad :: post, me⟩ = filterDetect ⟨pre ++ post, me⟩ ∧
    multiDetect ⟨pre ++ bad :: post, me⟩ = multiDetect ⟨pre ++ post, me⟩ ∧
    (∀ c, filterDetect ⟨pre ++ bad :: post, me⟩ = some c →
      probeSuccess c.probe = true) ∧
    (∀ c, multiDetect ⟨pre ++ bad :: post, me⟩ = some c →
      probeSuccess c.probe = true) := by
  have hps : probeSuccess bad.probe = false := probeSuccess_eq_false_of_raises _ hb
  have hkey : ∀ stage : Stage,
      detectLoop stage ((pre ++ bad :: post).filter (fun c => c.name ≠ me)) =
        detectLoop stage ((pre ++ post).filter (fun c => c.name ≠ me)) := by
    intro stage
    rw [List.filter_append, List.filter_append]
    by_cases hname : bad.name = me
    · rw [List.filter_cons_of_neg (by simp [hname])]
    · rw [List.filter_cons_of_pos (by simp [hname])]
      exact detectLoop_skip stage bad hps _ _
  refine ⟨?_, ?_, fun c hc => filterDetect_some_success _ c hc,
    fun c hc => multiDetect_some_success _ c hc⟩
  · unfold filterDetect
    rw [tryDetectWithDepends_mk_eq_loop, tryDetectWithDepends_mk_eq_loop,
      tryDetectWithDepends_mk_eq_loop, tryDetectWithDepends_mk_eq_loop,
      hkey Stage.fsOnly, hkey Stage.fsNet]
  · rw [multiDetect_mk_eq_loop, multiDetect_mk_eq_loop, hkey Stage.fsNet]

/-- C9 witness: a timing-out candidate listed first does not change what
either detector finds. -/
theorem c9_witness :
    filterDetect ⟨[candBad, candX], "BootHookFilter"⟩ =
      filterDetect ⟨[candX], "BootHookFilter"⟩ ∧
    multiDetect ⟨[candBad, candX], "BootHookFilter"⟩ =
      multiDetect ⟨[candX], "BootHookFilter"⟩ :=
  ⟨(c9_probe_isolation candBad [] [candX] "BootHookFilter" (by decide)).1,
   (c9_probe_isolation candBad [] [candX] "BootHookFilter" (by decide)).2.1⟩

/-- C10: a truthy payload that is neither str nor bytes passes through
the filter unchanged (and no exception is raised; the unexpected-type
branch merely logs a warning and returns the payload). -/
theorem c10_other_passthrough (n : Nat) :
    filter_boothooks (.other n true) = .other n true := rfl

end CloudInitStrict
